import Mathlib

/-!
# Syncro front end: the authentication context

A shallow embedding of `syncro-frontend/src/contexts/AuthContext.jsx`.

The provider keeps three pieces of React state (`user`, `loading`, `token`), reads and
writes `localStorage`, and mutates `axios.defaults`.  All of that is gathered in one record,
`World`, and every function of the provider becomes a function on `World`.

Conventions of the embedding.

* JavaScript values are the primitives `undefined`, `null`, booleans and strings (`Val`), and
  flat objects whose properties hold primitives (`JVal`).  Numbers, arrays and nested objects
  are not represented.
* `JSON.parse` and `JSON.stringify` belong to the JavaScript runtime, not to the repository;
  they are a parameter (`JSONApi`).  `parse` answers `none` where `JSON.parse` throws.  The
  same parameter says which contents `localStorage` takes: a write that would go beyond the
  quota of the browser throws, and `login` and `register` catch that like any other error.
* The reply of the server to `axios.post` is an argument of `login` and `register`
  (`HttpOutcome`); every request that is sent is appended to `World.requests`.
* A call of `setToken` or `setUser` is shown as an assignment to the state; no function of the
  provider reads the state it has just set.  The effect that depends on `[token]` is a separate
  function, `tokenEffect`, and `rerender` runs it when the token differs from the token of
  the previous render, which is how React decides to run it again.
* `login` and `register` are a `try` block and a `catch` block.  The `try` block is a function
  of its own (`loginTry`, `registerTry`) that says how the block ends, by returning or by
  throwing, and in which state; the function itself adds what the `catch` block does.
* `console.log` and `console.error` have no effect on the state and are left out.
-/

namespace Syncro

/-! ## Values -/

/-- JavaScript primitive values. -/
inductive Val where
  | undefined
  | null
  | bool (b : Bool)
  | str (s : String)
  deriving DecidableEq, Repr

namespace Val

/-- Boolean coercion, as in `!!v` or a condition. -/
def truthy : Val → Bool
  | undefined => false
  | null => false
  | bool b => b
  | str s => decide (s ≠ "")

/-- String coercion, as in a template literal or in `localStorage.setItem`. -/
def toStr : Val → String
  | undefined => "undefined"
  | null => "null"
  | bool true => "true"
  | bool false => "false"
  | str s => s

/-- Test for `null` or `undefined`. -/
def isNullish : Val → Bool
  | undefined => true
  | null => true
  | _ => false

end Val

/-- Values of the in-memory user, of a response body and of an error payload: a primitive or a
flat object, given by its properties in insertion order. -/
inductive JVal where
  | prim (v : Val)
  | obj (fields : List (String × Val))
  deriving DecidableEq, Repr

namespace JVal

/-- Boolean coercion: every object is truthy. -/
def truthy : JVal → Bool
  | prim v => v.truthy
  | obj _ => true

/-- Test for `null` or `undefined`. -/
def isNullish : JVal → Bool
  | prim v => v.isNullish
  | obj _ => false

/-- Property read `v.k` on a value that is neither `null` nor `undefined`; a property that is
missing reads as `undefined`, and so does any property of a primitive. -/
def get (k : String) : JVal → Val
  | obj fields => (fields.lookup k).getD Val.undefined
  | prim _ => Val.undefined

/-- Optional chaining `v?.k`. -/
def optGet (k : String) (v : JVal) : Val :=
  if v.isNullish then Val.undefined else v.get k

/-- The operator `a || b`. -/
def or (a b : JVal) : JVal :=
  if a.truthy then a else b

end JVal

/-- The object literal `{ username: userName, role }`. -/
def userRecord (userName role : Val) : JVal :=
  JVal.obj [("username", userName), ("role", role)]

/-! ## localStorage -/

/-- Contents of `localStorage`: keys with their strings. -/
abbrev Storage := List (String × String)

namespace Storage

/-- `localStorage.getItem(k)`: the string stored under `k`, or `null`. -/
def getItem (s : Storage) (k : String) : Val :=
  match s.lookup k with
  | some v => Val.str v
  | none => Val.null

/-- The contents after `v`, as a string, has been put under `k`. -/
def write : Storage → String → Val → Storage
  | [], k, v => [(k, v.toStr)]
  | (k', v') :: rest, k, v =>
    if k' = k then (k, v.toStr) :: rest else (k', v') :: write rest k v

/-- The room the contents take: the characters of all keys and values. -/
def size (s : Storage) : Nat :=
  (s.map (fun kv => kv.1.length + kv.2.length)).sum

/-- `localStorage.removeItem(k)`. -/
def removeItem (s : Storage) (k : String) : Storage :=
  s.filter (fun kv => decide (kv.1 ≠ k))

end Storage

/-- What the provider uses of the runtime: the two functions of the object `JSON` that it
calls, and the test by which `localStorage` takes a write. -/
structure JSONApi where
  /-- `JSON.parse`; `none` where it throws. -/
  parse : String → Option JVal
  /-- `JSON.stringify` on an object. -/
  stringify : JVal → String
  /-- Whether the browser takes the contents a write would give; it refuses those beyond its
  quota. -/
  accepts : Storage → Bool

/-! ## Errors and HTTP -/

/-- A request sent with `axios.post(url, body)`. -/
structure Request where
  url : String
  body : List (String × Val)
  deriving DecidableEq, Repr

/-- An error object that is thrown: the one a failed `axios.post` rejects with, a `TypeError`,
or the `QuotaExceededError` of `localStorage`. -/
structure JSError where
  /-- The body of `error.response`, `none` when the error has no response. -/
  response : Option JVal
  /-- The property `error.message`. -/
  message : Val
  deriving DecidableEq, Repr

/-- The expression `error.response?.data`. -/
def JSError.payload (e : JSError) : JVal :=
  match e.response with
  | some d => d
  | none => JVal.prim Val.undefined

/-- The `QuotaExceededError` thrown by `localStorage.setItem`; it has no `response`, and the
text of its message is chosen by the browser. -/
def quotaError : JSError :=
  { response := none, message := Val.str "The quota has been exceeded." }

/-- `localStorage.setItem(k, v)`: `v` is stored as a string, unless the browser refuses the
contents this would give; then the call throws and the store stays as it is. -/
def Storage.setItem (accepts : Storage → Bool) (s : Storage) (k : String) (v : Val) :
    Except JSError Storage :=
  if accepts (s.write k v) then Except.ok (s.write k v) else Except.error quotaError

/-- How `await axios.post(...)` ends: with a response whose body is `data`, or by throwing. -/
inductive HttpOutcome where
  | resolved (data : JVal)
  | rejected (error : JSError)
  deriving DecidableEq, Repr

/-- The `TypeError` thrown by destructuring `null` or `undefined`.  The text of its message is
chosen by the engine; only that it is a non-empty string matters. -/
def destructureError : JSError :=
  { response := none, message := Val.str "Cannot destructure property of response.data" }

/-- The pattern `const { token: newToken, username: userName, role } = response.data`. -/
def destructure (data : JVal) : Except JSError (Val × Val × Val) :=
  if data.isNullish then Except.error destructureError
  else Except.ok (data.get "token", data.get "username", data.get "role")

/-- The object `login` and `register` return: `success` and, on failure, `error`. -/
structure AuthResult where
  success : Bool
  error : Option JVal
  deriving DecidableEq, Repr

/-! ## The provider -/

/-- Everything the provider reads or writes. -/
structure World where
  /-- React state `user`. -/
  user : JVal
  /-- React state `token`. -/
  token : Val
  /-- React state `loading`. -/
  loading : Bool
  /-- The browser store, `localStorage`. -/
  storage : Storage
  /-- The default header `axios.defaults.headers.common.Authorization`, `none` when absent. -/
  authorization : Option String
  /-- The setting `axios.defaults.baseURL`. -/
  baseURL : Option String
  /-- The requests sent so far, oldest first. -/
  requests : List Request
  deriving DecidableEq, Repr

/-- The first render: `useState(null)`, `useState(true)`,
`useState(localStorage.getItem("token"))`, before any effect has run. -/
def initialRender (storage : Storage) : World :=
  { user := JVal.prim Val.null
    token := storage.getItem "token"
    loading := true
    storage := storage
    authorization := none
    baseURL := none
    requests := [] }

/-- The effect with dependency list `[token]`. -/
def tokenEffect (w : World) : World :=
  let w := { w with baseURL := some "http://localhost:5095" }
  if w.token.truthy then
    { w with authorization := some ("Bearer " ++ w.token.toStr) }
  else
    { w with authorization := none }

/-- The function `initializeAuth` of the mount effect. -/
def initializeAuth (J : JSONApi) (w : World) : World :=
  let savedToken := w.storage.getItem "token"
  let savedUser := w.storage.getItem "user"
  let w :=
    if savedToken.truthy && savedUser.truthy then
      let w := { w with authorization := some ("Bearer " ++ savedToken.toStr) }
      let w := { w with token := savedToken }
      match J.parse savedUser.toStr with
      | some u => { w with user := u }
      | none =>
        let w := { w with storage := w.storage.removeItem "token" }
        let w := { w with storage := w.storage.removeItem "user" }
        { w with authorization := none }
    else w
  { w with loading := false }

/-- The `try` block of `login`: the state when the block ends and how it ends, by returning a
result or by throwing.  The request, the destructuring of the reply and each of the two writes
to the store can throw; what was done before stays done. -/
def loginTry (J : JSONApi) (username password : Val) (http : HttpOutcome) (w : World) :
    World × Except JSError AuthResult :=
  let w := { w with requests := w.requests ++
    [{ url := "/api/auth/login", body := [("username", username), ("password", password)] }] }
  match http with
  | HttpOutcome.rejected error => (w, Except.error error)
  | HttpOutcome.resolved data =>
    match destructure data with
    | Except.error error => (w, Except.error error)
    | Except.ok (newToken, userName, role) =>
      match Storage.setItem J.accepts w.storage "token" newToken with
      | Except.error error => (w, Except.error error)
      | Except.ok storage =>
        let w := { w with storage := storage }
        match Storage.setItem J.accepts w.storage "user"
            (Val.str (J.stringify (userRecord userName role))) with
        | Except.error error => (w, Except.error error)
        | Except.ok storage =>
          let w := { w with storage := storage }
          let w := { w with token := newToken }
          let w := { w with user := userRecord userName role }
          let w := { w with authorization := some ("Bearer " ++ newToken.toStr) }
          (w, Except.ok { success := true, error := none })

/-- The function `login`: its `try` block, and its `catch` block when the `try` block
throws. -/
def login (J : JSONApi) (username password : Val) (http : HttpOutcome) (w : World) :
    World × AuthResult :=
  match loginTry J username password http w with
  | (w, Except.ok result) => (w, result)
  | (w, Except.error error) =>
    (w, { success := false
          error := some ((error.payload.or (JVal.prim error.message)).or
            (JVal.prim (Val.str "Login failed"))) })

/-- The `try` block of `register`, as `loginTry`. -/
def registerTry (J : JSONApi) (username email password : Val) (http : HttpOutcome)
    (w : World) : World × Except JSError AuthResult :=
  let w := { w with requests := w.requests ++
    [{ url := "/api/auth/register"
       body := [("username", username), ("email", email), ("password", password)] }] }
  match http with
  | HttpOutcome.rejected error => (w, Except.error error)
  | HttpOutcome.resolved data =>
    match destructure data with
    | Except.error error => (w, Except.error error)
    | Except.ok (newToken, userName, role) =>
      match Storage.setItem J.accepts w.storage "token" newToken with
      | Except.error error => (w, Except.error error)
      | Except.ok storage =>
        let w := { w with storage := storage }
        match Storage.setItem J.accepts w.storage "user"
            (Val.str (J.stringify (userRecord userName role))) with
        | Except.error error => (w, Except.error error)
        | Except.ok storage =>
          let w := { w with storage := storage }
          let w := { w with token := newToken }
          let w := { w with user := userRecord userName role }
          let w := { w with authorization := some ("Bearer " ++ newToken.toStr) }
          (w, Except.ok { success := true, error := none })

/-- The function `register`: its `try` block, and its `catch` block when the `try` block
throws. -/
def register (J : JSONApi) (username email password : Val) (http : HttpOutcome) (w : World) :
    World × AuthResult :=
  match registerTry J username email password http w with
  | (w, Except.ok result) => (w, result)
  | (w, Except.error error) =>
    (w, { success := false
          error := some ((error.payload.or (JVal.prim error.message)).or
            (JVal.prim (Val.str "Registration failed"))) })

/-- The function `logout`. -/
def logout (w : World) : World :=
  let w := { w with storage := w.storage.removeItem "token" }
  let w := { w with storage := w.storage.removeItem "user" }
  let w := { w with token := Val.null }
  let w := { w with user := JVal.prim Val.null }
  { w with authorization := none }

/-- The function `hasRole`: `user?.role === requiredRole`. -/
def hasRole (w : World) (requiredRole : Val) : Bool :=
  decide (w.user.optGet "role" = requiredRole)

/-- The function `isAuthenticated`: `!!token && !!user`. -/
def isAuthenticated (w : World) : Bool :=
  w.token.truthy && w.user.truthy

/-! ## Rendering and runs -/

/-- The render that follows an operation: the effect on `[token]` runs again when the token is
not the one of the previous render, `prevToken`. -/
def rerender (prevToken : Val) (w : World) : World :=
  if w.token = prevToken then w else tokenEffect w

/-- Mounting the provider on a store: first render, then the two effects in the order they are
declared, then the render that the state changes of `initializeAuth` ask for. -/
def mount (J : JSONApi) (storage : Storage) : World :=
  let w := initialRender storage
  rerender w.token (initializeAuth J (tokenEffect w))

/-- The operations a session goes through, each with the reply of the server where it sends a
request. -/
inductive Action where
  | initializeAuth
  | login (username password : Val) (http : HttpOutcome)
  | register (username email password : Val) (http : HttpOutcome)
  | logout
  deriving DecidableEq, Repr

/-- The state an operation leaves when it returns. -/
def perform (J : JSONApi) : Action → World → World
  | Action.initializeAuth, w => initializeAuth J w
  | Action.login u p http, w => (login J u p http w).1
  | Action.register u e p http, w => (register J u e p http w).1
  | Action.logout, w => logout w

/-- One operation followed by the render it causes. -/
def step (J : JSONApi) (a : Action) (w : World) : World :=
  rerender w.token (perform J a w)

/-- A sequence of operations, each followed by its render. -/
def run (J : JSONApi) : List Action → World → World
  | [], w => w
  | a :: rest, w => run J rest (step J a w)

/-- A stand-in for the runtime on the records of the scenarios: it writes a record of two
strings as JSON text (names without characters that need escaping) and reads back the two
records the scenarios use; any other text is not parseable.  Its store has a quota of 5 MiB of
characters. -/
def stubJSON : JSONApi where
  parse s :=
    if s = "\x7b\"username\":\"bob\",\"role\":\"admin\"\x7d" then
      some (userRecord (Val.str "bob") (Val.str "admin"))
    else if s = "\x7b\"username\":\"bob\",\"role\":\"user\"\x7d" then
      some (userRecord (Val.str "bob") (Val.str "user"))
    else none
  stringify v :=
    "\x7b\"username\":\"" ++ (v.get "username").toStr ++ "\",\"role\":\"" ++
      (v.get "role").toStr ++ "\"\x7d"
  accepts s := decide (s.size ≤ 5242880)

/-- The same runtime with room for 24 characters only: a store that is almost full. -/
def crampedJSON : JSONApi :=
  { stubJSON with accepts := fun s => decide (s.size ≤ 24) }

/-- The body `{ token, username, role }` of a reply. -/
def authResponse (token username role : Val) : JVal :=
  JVal.obj [("token", token), ("username", username), ("role", role)]

/-- A reply that, where its body can be destructured, holds a token that is neither `null` nor
`undefined`; a failed request counts as such a reply. -/
def HttpOutcome.carriesToken : HttpOutcome → Bool
  | HttpOutcome.resolved data => data.isNullish || !(data.get "token").isNullish
  | HttpOutcome.rejected _ => true

/-- An operation whose reply, if it has one, carries a token. -/
def Action.carriesToken : Action → Bool
  | Action.login _ _ http => http.carriesToken
  | Action.register _ _ _ http => http.carriesToken
  | _ => true

/-- The shape of a failure result for the error `error` that was caught: `success` is false,
and `error` is the payload of the response unless that is missing or one of `undefined`,
`null`, `false` and the empty string; otherwise the message of the error unless that is one of
these four; otherwise the text `fallback`. -/
def FailureResult (error : JSError) (fallback : String) (result : AuthResult) : Prop :=
  result.success = false ∧
  (∀ data, error.response = some data →
    data ∉ [JVal.prim Val.undefined, JVal.prim Val.null, JVal.prim (Val.bool false),
      JVal.prim (Val.str "")] →
    result.error = some data) ∧
  ((∀ data, error.response = some data →
      data ∈ [JVal.prim Val.undefined, JVal.prim Val.null, JVal.prim (Val.bool false),
        JVal.prim (Val.str "")]) →
    (error.message ∉ [Val.undefined, Val.null, Val.bool false, Val.str ""] →
      result.error = some (JVal.prim error.message)) ∧
    (error.message ∈ [Val.undefined, Val.null, Val.bool false, Val.str ""] →
      result.error = some (JVal.prim (Val.str fallback))))

/-! ## Lemmas on the store -/

theorem Storage.lookup_write_same (s : Storage) (k : String) (v : Val) :
    List.lookup k (Storage.write s k v) = some v.toStr := by
  induction s with
  | nil => simp [Storage.write, List.lookup]
  | cons kv rest ih =>
    obtain ⟨k', v'⟩ := kv
    by_cases h : k' = k
    · simp [Storage.write, h, List.lookup]
    · have h' : (k == k') = false := by simpa using fun e => h e.symm
      simp [Storage.write, h, List.lookup, h', ih]

theorem Storage.lookup_write_other (s : Storage) (k k' : String) (v : Val) (h : k' ≠ k) :
    List.lookup k' (Storage.write s k v) = List.lookup k' s := by
  induction s with
  | nil =>
    have h' : (k' == k) = false := by simpa using h
    simp [Storage.write, List.lookup, h']
  | cons kv rest ih =>
    obtain ⟨k1, v1⟩ := kv
    by_cases h1 : k1 = k
    · subst h1
      have h' : (k' == k1) = false := by simpa using h
      simp [Storage.write, List.lookup, h']
    · simp only [Storage.write, h1, if_false, List.lookup]
      rw [ih]

theorem Storage.lookup_removeItem_same (s : Storage) (k : String) :
    List.lookup k (Storage.removeItem s k) = none := by
  induction s with
  | nil => simp [Storage.removeItem]
  | cons kv rest ih =>
    obtain ⟨k1, v1⟩ := kv
    by_cases h1 : k1 = k
    · simpa [Storage.removeItem, List.filter, h1] using ih
    · have h' : (k == k1) = false := by simpa using fun e => h1 e.symm
      simpa [Storage.removeItem, List.filter, h1, List.lookup, h'] using ih

theorem Storage.lookup_removeItem_other (s : Storage) (k k' : String) (h : k' ≠ k) :
    List.lookup k' (Storage.removeItem s k) = List.lookup k' s := by
  induction s with
  | nil => simp [Storage.removeItem]
  | cons kv rest ih =>
    obtain ⟨k1, v1⟩ := kv
    by_cases h1 : k1 = k
    · subst h1
      have h' : (k' == k1) = false := by simpa using h
      simpa [Storage.removeItem, List.filter, List.lookup, h'] using ih
    · by_cases h2 : k' = k1
      · subst h2
        simp [Storage.removeItem, List.filter, h1, List.lookup]
      · have h' : (k' == k1) = false := by simpa using h2
        simpa [Storage.removeItem, List.filter, h1, List.lookup, h'] using ih

theorem Storage.getItem_write_same (s : Storage) (k : String) (v : Val) :
    (Storage.write s k v).getItem k = Val.str v.toStr := by
  simp [Storage.getItem, Storage.lookup_write_same]

theorem Storage.getItem_write_other (s : Storage) (k k' : String) (v : Val) (h : k' ≠ k) :
    (Storage.write s k v).getItem k' = s.getItem k' := by
  simp [Storage.getItem, Storage.lookup_write_other s k k' v h]

theorem Storage.getItem_removeItem_same (s : Storage) (k : String) :
    (Storage.removeItem s k).getItem k = Val.null := by
  simp [Storage.getItem, Storage.lookup_removeItem_same]

theorem Storage.getItem_removeItem_other (s : Storage) (k k' : String) (h : k' ≠ k) :
    (Storage.removeItem s k).getItem k' = s.getItem k' := by
  simp [Storage.getItem, Storage.lookup_removeItem_other s k k' h]

/-! ## Lemmas on values and on the two functions -/

theorem Val.truthy_iff_not_falsy (v : Val) :
    v.truthy = true ↔ v ∉ [Val.undefined, Val.null, Val.bool false, Val.str ""] := by
  cases v with
  | undefined => simp [Val.truthy]
  | null => simp [Val.truthy]
  | bool b => cases b <;> simp [Val.truthy]
  | str s => simp [Val.truthy]

theorem JVal.truthy_iff_not_falsy_value (d : JVal) :
    d.truthy = true ↔
      d ∉ [JVal.prim Val.undefined, JVal.prim Val.null, JVal.prim (Val.bool false),
        JVal.prim (Val.str "")] := by
  cases d with
  | obj fields => simp [JVal.truthy]
  | prim v =>
    have h := Val.truthy_iff_not_falsy v
    simp only [List.mem_cons, List.mem_singleton, List.not_mem_nil, or_false] at h
    simp only [JVal.truthy, h, List.mem_cons, List.mem_singleton, List.not_mem_nil, or_false,
      JVal.prim.injEq]

theorem or_or_eq (a : JVal) (m : Val) (fallback : String) :
    (a.or (JVal.prim m)).or (JVal.prim (Val.str fallback)) =
      if a.truthy then a
      else if m.truthy then JVal.prim m
      else JVal.prim (Val.str fallback) := by
  have hp : (JVal.prim m).truthy = m.truthy := rfl
  by_cases ha : a.truthy = true
  · simp only [JVal.or, ha, if_true]
  · by_cases hm : m.truthy = true
    · simp only [JVal.or, ha, hp, hm, if_true, if_false, Bool.false_eq_true]
    · simp only [JVal.or, ha, hp, hm, if_false, Bool.false_eq_true]

theorem login_of_ok (J : JSONApi) (username password : Val) (http : HttpOutcome) (w : World)
    (result : AuthResult) (h : (loginTry J username password http w).2 = Except.ok result) :
    login J username password http w = ((loginTry J username password http w).1, result) := by
  unfold login
  rcases hp : loginTry J username password http w with ⟨w1, c⟩
  rw [hp] at h
  dsimp only at h
  subst h
  rfl

theorem login_of_error (J : JSONApi) (username password : Val) (http : HttpOutcome) (w : World)
    (error : JSError) (h : (loginTry J username password http w).2 = Except.error error) :
    login J username password http w =
      ((loginTry J username password http w).1,
        { success := false
          error := some ((error.payload.or (JVal.prim error.message)).or
            (JVal.prim (Val.str "Login failed"))) }) := by
  unfold login
  rcases hp : loginTry J username password http w with ⟨w1, c⟩
  rw [hp] at h
  dsimp only at h
  subst h
  rfl

theorem register_of_error (J : JSONApi) (username email password : Val) (http : HttpOutcome)
    (w : World) (error : JSError)
    (h : (registerTry J username email password http w).2 = Except.error error) :
    register J username email password http w =
      ((registerTry J username email password http w).1,
        { success := false
          error := some ((error.payload.or (JVal.prim error.message)).or
            (JVal.prim (Val.str "Registration failed"))) }) := by
  unfold register
  rcases hp : registerTry J username email password http w with ⟨w1, c⟩
  rw [hp] at h
  dsimp only at h
  subst h
  rfl

theorem login_fst (J : JSONApi) (username password : Val) (http : HttpOutcome) (w : World) :
    (login J username password http w).1 = (loginTry J username password http w).1 := by
  unfold login
  rcases loginTry J username password http w with ⟨w1, c⟩
  cases c <;> rfl

theorem register_fst (J : JSONApi) (username email password : Val) (http : HttpOutcome)
    (w : World) :
    (register J username email password http w).1 =
      (registerTry J username email password http w).1 := by
  unfold register
  rcases registerTry J username email password http w with ⟨w1, c⟩
  cases c <;> rfl

/-- The `try` block of `register` does what the one of `login` does, apart from the request
that it sends. -/
theorem registerTry_eq (J : JSONApi) (username email password : Val) (http : HttpOutcome)
    (w : World) :
    registerTry J username email password http w =
      ({ (loginTry J username password http w).1 with
          requests := w.requests ++
            [{ url := "/api/auth/register"
               body := [("username", username), ("email", email), ("password", password)] }] },
        (loginTry J username password http w).2) := by
  cases http with
  | rejected error => rfl
  | resolved data =>
    simp only [registerTry, loginTry]
    cases hd : destructure data with
    | error e => rfl
    | ok v =>
      obtain ⟨t, u, r⟩ := v
      simp only [Storage.setItem]
      by_cases h1 : J.accepts (Storage.write w.storage "token" t) = true
      · simp only [h1, if_true]
        by_cases h2 : J.accepts (Storage.write (Storage.write w.storage "token" t) "user"
            (Val.str (J.stringify (userRecord u r)))) = true
        · simp only [h2, if_true]
        · simp only [h2]
          rfl
      · simp only [h1]
        rfl

theorem loginTry_nullish (J : JSONApi) (username password : Val) (data : JVal) (w : World)
    (hd : data.isNullish = true) :
    loginTry J username password (HttpOutcome.resolved data) w =
      ({ w with requests := w.requests ++
          [{ url := "/api/auth/login"
             body := [("username", username), ("password", password)] }] },
        Except.error destructureError) := by
  simp [loginTry, destructure, hd]

theorem loginTry_token_refused (J : JSONApi) (username password : Val) (data : JVal)
    (w : World) (hd : data.isNullish = false)
    (h1 : J.accepts (Storage.write w.storage "token" (data.get "token")) = false) :
    loginTry J username password (HttpOutcome.resolved data) w =
      ({ w with requests := w.requests ++
          [{ url := "/api/auth/login"
             body := [("username", username), ("password", password)] }] },
        Except.error quotaError) := by
  simp [loginTry, destructure, Storage.setItem, hd, h1]

theorem loginTry_user_refused (J : JSONApi) (username password : Val) (data : JVal)
    (w : World) (hd : data.isNullish = false)
    (h1 : J.accepts (Storage.write w.storage "token" (data.get "token")) = true)
    (h2 : J.accepts (Storage.write (Storage.write w.storage "token" (data.get "token")) "user"
      (Val.str (J.stringify (userRecord (data.get "username") (data.get "role"))))) = false) :
    loginTry J username password (HttpOutcome.resolved data) w =
      ({ w with
          requests := w.requests ++
            [{ url := "/api/auth/login"
               body := [("username", username), ("password", password)] }]
          storage := Storage.write w.storage "token" (data.get "token") },
        Except.error quotaError) := by
  simp [loginTry, destructure, Storage.setItem, hd, h1, h2]

theorem loginTry_accepted (J : JSONApi) (username password : Val) (data : JVal)
    (w : World) (hd : data.isNullish = false)
    (h1 : J.accepts (Storage.write w.storage "token" (data.get "token")) = true)
    (h2 : J.accepts (Storage.write (Storage.write w.storage "token" (data.get "token")) "user"
      (Val.str (J.stringify (userRecord (data.get "username") (data.get "role"))))) = true) :
    loginTry J username password (HttpOutcome.resolved data) w =
      ({ user := userRecord (data.get "username") (data.get "role")
         token := data.get "token"
         loading := w.loading
         storage := Storage.write (Storage.write w.storage "token" (data.get "token")) "user"
           (Val.str (J.stringify (userRecord (data.get "username") (data.get "role"))))
         authorization := some ("Bearer " ++ (data.get "token").toStr)
         baseURL := w.baseURL
         requests := w.requests ++
           [{ url := "/api/auth/login"
              body := [("username", username), ("password", password)] }] },
        Except.ok { success := true, error := none }) := by
  simp [loginTry, destructure, Storage.setItem, hd, h1, h2]

/-- What the `try` block of `login` leaves: the request is logged; when the block throws, the
token, the user and the header are untouched; when it returns, the result is a success and the
token and the user are those of the reply. -/
theorem loginTry_frame (J : JSONApi) (username password : Val) (http : HttpOutcome)
    (w : World) :
    (loginTry J username password http w).1.requests = w.requests ++
      [{ url := "/api/auth/login"
         body := [("username", username), ("password", password)] }] ∧
    (loginTry J username password http w).1.loading = w.loading ∧
    (loginTry J username password http w).1.baseURL = w.baseURL ∧
    ((∃ error, (loginTry J username password http w).2 = Except.error error ∧
        (loginTry J username password http w).1.user = w.user ∧
        (loginTry J username password http w).1.token = w.token ∧
        (loginTry J username password http w).1.authorization = w.authorization) ∨
      (∃ data, http = HttpOutcome.resolved data ∧ data.isNullish = false ∧
        (loginTry J username password http w).2 =
          Except.ok { success := true, error := none } ∧
        (loginTry J username password http w).1.user =
          userRecord (data.get "username") (data.get "role") ∧
        (loginTry J username password http w).1.token = data.get "token" ∧
        (loginTry J username password http w).1.authorization =
          some ("Bearer " ++ (data.get "token").toStr))) := by
  cases http with
  | rejected error => exact ⟨rfl, rfl, rfl, Or.inl ⟨error, rfl, rfl, rfl, rfl⟩⟩
  | resolved data =>
    cases hd : data.isNullish with
    | true =>
      rw [loginTry_nullish J username password data w hd]
      exact ⟨rfl, rfl, rfl, Or.inl ⟨_, rfl, rfl, rfl, rfl⟩⟩
    | false =>
      cases h1 : J.accepts (Storage.write w.storage "token" (data.get "token")) with
      | false =>
        rw [loginTry_token_refused J username password data w hd h1]
        exact ⟨rfl, rfl, rfl, Or.inl ⟨_, rfl, rfl, rfl, rfl⟩⟩
      | true =>
        cases h2 : J.accepts (Storage.write
            (Storage.write w.storage "token" (data.get "token")) "user"
            (Val.str (J.stringify (userRecord (data.get "username") (data.get "role"))))) with
        | false =>
          rw [loginTry_user_refused J username password data w hd h1 h2]
          exact ⟨rfl, rfl, rfl, Or.inl ⟨_, rfl, rfl, rfl, rfl⟩⟩
        | true =>
          rw [loginTry_accepted J username password data w hd h1 h2]
          exact ⟨rfl, rfl, rfl, Or.inr ⟨data, rfl, hd, rfl, rfl, rfl, rfl⟩⟩


theorem login_rejected (J : JSONApi) (username password : Val) (error : JSError) (w : World) :
    login J username password (HttpOutcome.rejected error) w =
      ({ w with requests := w.requests ++
          [{ url := "/api/auth/login"
             body := [("username", username), ("password", password)] }] },
        { success := false
          error := some ((error.payload.or (JVal.prim error.message)).or
            (JVal.prim (Val.str "Login failed"))) }) := rfl

theorem login_resolved (J : JSONApi) (username password t u r : Val) (w : World)
    (h1 : J.accepts (Storage.write w.storage "token" t) = true)
    (h2 : J.accepts (Storage.write (Storage.write w.storage "token" t) "user"
      (Val.str (J.stringify (userRecord u r)))) = true) :
    login J username password (HttpOutcome.resolved (authResponse t u r)) w =
      ({ user := userRecord u r
         token := t
         loading := w.loading
         storage := Storage.write (Storage.write w.storage "token" t) "user"
           (Val.str (J.stringify (userRecord u r)))
         authorization := some ("Bearer " ++ t.toStr)
         baseURL := w.baseURL
         requests := w.requests ++
           [{ url := "/api/auth/login"
              body := [("username", username), ("password", password)] }] },
        { success := true, error := none }) := by
  have ht : (authResponse t u r).get "token" = t := by
    simp [authResponse, JVal.get, List.lookup]
  have hu : (authResponse t u r).get "username" = u := by
    simp [authResponse, JVal.get, List.lookup]
  have hr : (authResponse t u r).get "role" = r := by
    simp [authResponse, JVal.get, List.lookup]
  have h := loginTry_accepted J username password (authResponse t u r) w rfl
    (by rw [ht]; exact h1) (by rw [ht, hu, hr]; exact h2)
  rw [ht, hu, hr] at h
  rw [login_of_ok J username password _ w { success := true, error := none }
    (by rw [h]), h]

theorem rerender_fields (prev : Val) (w : World) :
    (rerender prev w).token = w.token ∧ (rerender prev w).user = w.user ∧
      (rerender prev w).storage = w.storage ∧ (rerender prev w).loading = w.loading ∧
      (rerender prev w).requests = w.requests := by
  unfold rerender tokenEffect
  split
  · simp
  · dsimp only
    split <;> simp

theorem hasRole_userRecord (w : World) (u r requiredRole : Val)
    (h : w.user = userRecord u r) : hasRole w requiredRole = true ↔ requiredRole = r := by
  simp [hasRole, h, userRecord, JVal.optGet, JVal.isNullish, JVal.get, List.lookup, eq_comm]

/-- Claim C1 fails in two ways.  When the store has no room for the user record, `login`
answers `success: false` although the reply was a success, with the token written to the store
and nothing else changed.  And after a reply with an empty token, the render that follows
`login` removes the `Authorization` header. -/
theorem login_store_full_or_empty_token :
    (login crampedJSON (Val.str "bob") (Val.str "secret")
      (HttpOutcome.resolved
        (JVal.obj [("token", Val.str "t1"), ("username", Val.str "bob"), ("role", Val.str "user")]))
      (mount crampedJSON [])).2.success = false ∧
    (login crampedJSON (Val.str "bob") (Val.str "secret")
      (HttpOutcome.resolved
        (JVal.obj [("token", Val.str "t1"), ("username", Val.str "bob"), ("role", Val.str "user")]))
      (mount crampedJSON [])).1.storage = [("token", "t1")] ∧
    (login crampedJSON (Val.str "bob") (Val.str "secret")
      (HttpOutcome.resolved
        (JVal.obj [("token", Val.str "t1"), ("username", Val.str "bob"), ("role", Val.str "user")]))
      (mount crampedJSON [])).1.token = Val.null ∧
    (login crampedJSON (Val.str "bob") (Val.str "secret")
      (HttpOutcome.resolved
        (JVal.obj [("token", Val.str "t1"), ("username", Val.str "bob"), ("role", Val.str "user")]))
      (mount crampedJSON [])).1.authorization = none ∧
    (step stubJSON (Action.login (Val.str "bob") (Val.str "secret")
      (HttpOutcome.resolved
        (JVal.obj [("token", Val.str ""), ("username", Val.str "bob"), ("role", Val.str "user")])))
      (mount stubJSON [])).authorization = none := by
  decide

/-- Claim C1, amended: for every username, password and every reply
`{ token: t, username: u, role: r }` with strings `t`, `u`, `r` for which the store takes the
write of `token` and then the write of `user`, when `login` returns (`out`) the store holds `t`
under `token` and the serialisation of `{ username: u, role: r }` under `user`, the state holds
the token `t` and the user `{ username: u, role: r }`, the default `Authorization` header is
`Bearer ` followed by `t`, and the result is `{ success: true }`.  After the render that follows
(`next`) the store, the token and the user are the same, and so is the header when `t` is not
empty. -/
theorem login_success_state (J : JSONApi) (username password : Val) (t u r : String)
    (w : World)
    (htoken : J.accepts (Storage.write w.storage "token" (Val.str t)) = true)
    (huser : J.accepts (Storage.write (Storage.write w.storage "token" (Val.str t)) "user"
      (Val.str (J.stringify (JVal.obj [("username", Val.str u), ("role", Val.str r)])))) =
        true) :
    let reply := HttpOutcome.resolved
      (JVal.obj [("token", Val.str t), ("username", Val.str u), ("role", Val.str r)])
    let out := login J username password reply w
    let next := step J (Action.login username password reply) w
    out.1.storage.getItem "token" = Val.str t ∧
    out.1.storage.getItem "user" =
      Val.str (J.stringify (JVal.obj [("username", Val.str u), ("role", Val.str r)])) ∧
    out.1.token = Val.str t ∧
    out.1.user = JVal.obj [("username", Val.str u), ("role", Val.str r)] ∧
    out.1.authorization = some ("Bearer " ++ t) ∧
    out.2 = { success := true, error := none } ∧
    next.storage = out.1.storage ∧ next.token = out.1.token ∧ next.user = out.1.user ∧
    (t ≠ "" → next.authorization = some ("Bearer " ++ t)) := by
  intro reply out next
  have hout : out = login J username password
      (HttpOutcome.resolved (authResponse (Val.str t) (Val.str u) (Val.str r))) w := rfl
  have hnext : next = rerender w.token out.1 := rfl
  rw [login_resolved J username password _ _ _ w htoken huser] at hout
  obtain ⟨htok, husr, hsto, -, -⟩ := rerender_fields w.token out.1
  rw [← hnext] at htok husr hsto
  refine ⟨?_, ?_, ?_, ?_, ?_, ?_, hsto, htok, husr, ?_⟩
  · rw [hout]
    show Storage.getItem (Storage.write (Storage.write _ _ _) _ _) _ = _
    rw [Storage.getItem_write_other _ _ _ _ (by decide), Storage.getItem_write_same]
    rfl
  · rw [hout]
    show Storage.getItem (Storage.write (Storage.write _ _ _) _ _) _ = _
    rw [Storage.getItem_write_same]
    rfl
  · rw [hout]
  · rw [hout]; rfl
  · rw [hout]; rfl
  · rw [hout]
  · intro ht
    rw [hnext, hout]
    unfold rerender tokenEffect
    split
    · rfl
    · simp [Val.truthy, Val.toStr, ht]

theorem login_success_state_witness :
    (login stubJSON (Val.str "bob") (Val.str "secret")
      (HttpOutcome.resolved
        (JVal.obj [("token", Val.str "t1"), ("username", Val.str "bob"), ("role", Val.str "user")]))
      (mount stubJSON [])).1.authorization = some "Bearer t1" ∧
    (step stubJSON (Action.login (Val.str "bob") (Val.str "secret")
      (HttpOutcome.resolved
        (JVal.obj [("token", Val.str "t1"), ("username", Val.str "bob"), ("role", Val.str "user")])))
      (mount stubJSON [])).authorization = some "Bearer t1" :=
  have h := login_success_state stubJSON (Val.str "bob") (Val.str "secret") "t1" "bob" "user"
    (mount stubJSON []) (by decide) (by decide)
  ⟨h.2.2.2.2.1, h.2.2.2.2.2.2.2.2.2 (by decide)⟩

/-- Claim C2: for every prior state and every error the request of `login` fails with, `login`
returns a result with `success = false`, and the token, the user, the store and the
`Authorization` header are what they were, both when `login` returns (`out`) and after the
render that follows (`next`). -/
theorem login_failure_keeps_state (J : JSONApi) (username password : Val) (error : JSError)
    (w : World) :
    let out := login J username password (HttpOutcome.rejected error) w
    let next := step J (Action.login username password (HttpOutcome.rejected error)) w
    out.2.success = false ∧
    out.1.token = w.token ∧ out.1.user = w.user ∧ out.1.storage = w.storage ∧
      out.1.authorization = w.authorization ∧
    next.token = w.token ∧ next.user = w.user ∧ next.storage = w.storage ∧
      next.authorization = w.authorization := by
  intro out next
  have hout : out = login J username password (HttpOutcome.rejected error) w := rfl
  have hnext : next = rerender w.token out.1 := rfl
  rw [login_rejected] at hout
  rw [hnext, hout]
  simp [rerender]

theorem failureResult_catch (error : JSError) (fallback : String) :
    FailureResult error fallback
      { success := false
        error := some ((error.payload.or (JVal.prim error.message)).or
          (JVal.prim (Val.str fallback))) } := by
  rw [or_or_eq]
  refine ⟨rfl, ?_, ?_⟩
  · intro data hdata hne
    have hp : error.payload = data := by rw [JSError.payload, hdata]
    have ht : error.payload.truthy = true := by
      rw [hp]
      exact (JVal.truthy_iff_not_falsy_value data).2 hne
    show some (if error.payload.truthy = true then error.payload else _) = some data
    rw [if_pos ht, hp]
  · intro hno
    have hf : ¬ error.payload.truthy = true := by
      cases hr : error.response with
      | none =>
        rw [JSError.payload, hr]
        simp [JVal.truthy, Val.truthy]
      | some data =>
        rw [JSError.payload, hr]
        exact fun ht => (JVal.truthy_iff_not_falsy_value data).1 ht (hno data hr)
    refine ⟨fun hm => ?_, fun hm => ?_⟩
    · have hmt : error.message.truthy = true := (Val.truthy_iff_not_falsy _).2 hm
      show some (if error.payload.truthy = true then error.payload
        else if error.message.truthy = true then JVal.prim error.message else _) = _
      rw [if_neg hf, if_pos hmt]
    · have hmf : ¬ error.message.truthy = true := fun ht => (Val.truthy_iff_not_falsy _).1 ht hm
      show some (if error.payload.truthy = true then error.payload
        else if error.message.truthy = true then JVal.prim error.message else _) = _
      rw [if_neg hf, if_neg hmf]

/-- Claim C3 fails for a payload that is there and is falsy: when the server answers 400 with
the body `false`, `login` reports the message of the error, not the payload. -/
theorem login_false_payload_reports_message :
    (login stubJSON (Val.str "bob") (Val.str "secret")
      (HttpOutcome.rejected
        { response := some (JVal.prim (Val.bool false))
          message := Val.str "Request failed with status code 400" })
      (mount stubJSON [])).2 =
      { success := false
        error := some (JVal.prim (Val.str "Request failed with status code 400")) } := by
  decide

/-- Claim C3, amended: `login` and `register` do not let an error out.  A request that fails
throws inside the `try` block; and whenever the `try` block throws, be it for the request, for
the reply or for the store, the function returns, at the state of the throw, the result
`{ success: false, error: e }` where `e` is the payload of the response unless that is missing,
`undefined`, `null`, `false` or empty, otherwise the message of the error unless that is
`undefined`, `null`, `false` or empty, otherwise the fallback text (`Login failed`,
`Registration failed`). -/
theorem login_register_failure_result (J : JSONApi) (username email password : Val)
    (http : HttpOutcome) (w : World) :
    (∀ error, http = HttpOutcome.rejected error →
      (loginTry J username password http w).2 = Except.error error ∧
      (registerTry J username email password http w).2 = Except.error error) ∧
    (∀ error, (loginTry J username password http w).2 = Except.error error →
      (login J username password http w).1 = (loginTry J username password http w).1 ∧
      FailureResult error "Login failed" (login J username password http w).2) ∧
    (∀ error, (registerTry J username email password http w).2 = Except.error error →
      (register J username email password http w).1 =
        (registerTry J username email password http w).1 ∧
      FailureResult error "Registration failed"
        (register J username email password http w).2) := by
  refine ⟨?_, ?_, ?_⟩
  · intro error h
    subst h
    exact ⟨rfl, rfl⟩
  · intro error h
    rw [login_of_error J username password http w error h]
    exact ⟨rfl, failureResult_catch error "Login failed"⟩
  · intro error h
    rw [register_of_error J username email password http w error h]
    exact ⟨rfl, failureResult_catch error "Registration failed"⟩

theorem login_register_failure_result_witness :
    (login stubJSON (Val.str "bob") (Val.str "secret")
      (HttpOutcome.rejected
        { response := some (JVal.obj [("message", Val.str "Invalid credentials")])
          message := Val.str "Request failed with status code 401" })
      (mount stubJSON [])).2.error =
      some (JVal.obj [("message", Val.str "Invalid credentials")]) :=
  ((login_register_failure_result stubJSON (Val.str "bob") (Val.str "bob@example.org")
      (Val.str "secret")
      (HttpOutcome.rejected
        { response := some (JVal.obj [("message", Val.str "Invalid credentials")])
          message := Val.str "Request failed with status code 401" })
      (mount stubJSON [])).2.1
    { response := some (JVal.obj [("message", Val.str "Invalid credentials")])
      message := Val.str "Request failed with status code 401" } rfl).2.2.1
    (JVal.obj [("message", Val.str "Invalid credentials")]) rfl (by decide)

/-- Claim C4: for every state, after `logout` and its render `isAuthenticated()` is false, the
token and the user are `null`, the store has neither the key `token` nor the key `user`, there
is no default `Authorization` header, and every other key of the store holds what it held. -/
theorem logout_clears_session (J : JSONApi) (w : World) :
    let next := step J Action.logout w
    isAuthenticated next = false ∧
    next.token = Val.null ∧ next.user = JVal.prim Val.null ∧
    List.lookup "token" next.storage = none ∧ List.lookup "user" next.storage = none ∧
    next.authorization = none ∧
    ∀ k : String, k ≠ "token" → k ≠ "user" →
      List.lookup k next.storage = List.lookup k w.storage := by
  intro next
  have hnext : next = rerender w.token (logout w) := rfl
  obtain ⟨htok, husr, hsto, -, -⟩ := rerender_fields w.token (logout w)
  have hauth : next.authorization = none := by
    rw [hnext]
    unfold rerender tokenEffect
    split
    · rfl
    · simp [logout, Val.truthy]
  have hs : next.storage = (w.storage.removeItem "token").removeItem "user" := by
    rw [hnext, hsto]; rfl
  refine ⟨?_, ?_, ?_, ?_, ?_, hauth, ?_⟩
  · show (next.token.truthy && next.user.truthy) = false
    rw [hnext, htok, husr]
    rfl
  · rw [hnext, htok]; rfl
  · rw [hnext, husr]; rfl
  · rw [hs, Storage.lookup_removeItem_other _ _ _ (by decide), Storage.lookup_removeItem_same]
  · rw [hs, Storage.lookup_removeItem_same]
  · intro k h1 h2
    rw [hs, Storage.lookup_removeItem_other _ _ _ h2, Storage.lookup_removeItem_other _ _ _ h1]

theorem logout_clears_session_witness :
    List.lookup "theme" (step stubJSON Action.logout
        (mount stubJSON [("theme", "dark"), ("token", "abc")])).storage = some "dark" :=
  ((logout_clears_session stubJSON
      (mount stubJSON [("theme", "dark"), ("token", "abc")])).2.2.2.2.2.2
    "theme" (by decide) (by decide)).trans (by decide)

/-- Claim C5 fails in two ways.  After `login` with the reply
`{ token: "", username: "bob", role: "user" }`, `isAuthenticated()` is false.  And when the
store has no room for the user record, `login` answers `success: false` to a reply with the
token `t1`, and `isAuthenticated()` is false. -/
theorem login_not_authenticated :
    isAuthenticated (login stubJSON (Val.str "bob") (Val.str "secret")
      (HttpOutcome.resolved (authResponse (Val.str "") (Val.str "bob") (Val.str "user")))
      (mount stubJSON [])).1 = false ∧
    (login crampedJSON (Val.str "bob") (Val.str "secret")
      (HttpOutcome.resolved (authResponse (Val.str "t1") (Val.str "bob") (Val.str "user")))
      (mount crampedJSON [])).2.success = false ∧
    isAuthenticated (login crampedJSON (Val.str "bob") (Val.str "secret")
      (HttpOutcome.resolved (authResponse (Val.str "t1") (Val.str "bob") (Val.str "user")))
      (mount crampedJSON [])).1 = false := by
  decide

/-- Claim C5, amended: for every reply `{ token: t, username: u, role: r }` with a non-empty
token `t` for which the store takes the write of `token` and then the write of `user`, after
`login` returns (`out`), and after the render that follows (`next`), `isAuthenticated()` is
true and, for every `requiredRole`, `hasRole(requiredRole)` is true exactly when `requiredRole`
is `r`. -/
theorem login_success_authenticated (J : JSONApi) (username password : Val) (t u r : String)
    (w : World) (ht : t ≠ "")
    (htoken : J.accepts (Storage.write w.storage "token" (Val.str t)) = true)
    (huser : J.accepts (Storage.write (Storage.write w.storage "token" (Val.str t)) "user"
      (Val.str (J.stringify (JVal.obj [("username", Val.str u), ("role", Val.str r)])))) =
        true) :
    let reply := HttpOutcome.resolved
      (JVal.obj [("token", Val.str t), ("username", Val.str u), ("role", Val.str r)])
    let out := login J username password reply w
    let next := step J (Action.login username password reply) w
    isAuthenticated out.1 = true ∧
    (∀ requiredRole : Val, hasRole out.1 requiredRole = true ↔ requiredRole = Val.str r) ∧
    isAuthenticated next = true ∧
    (∀ requiredRole : Val, hasRole next requiredRole = true ↔ requiredRole = Val.str r) := by
  intro reply out next
  have hout : out = login J username password
      (HttpOutcome.resolved (authResponse (Val.str t) (Val.str u) (Val.str r))) w := rfl
  have hnext : next = rerender w.token out.1 := rfl
  rw [login_resolved J username password _ _ _ w htoken huser] at hout
  obtain ⟨htok, husr, -, -, -⟩ := rerender_fields w.token out.1
  rw [← hnext] at htok husr
  have hu : out.1.user = userRecord (Val.str u) (Val.str r) := by rw [hout]
  have hk : out.1.token = Val.str t := by rw [hout]
  have hauth : ∀ v : World, v.user = userRecord (Val.str u) (Val.str r) →
      v.token = Val.str t → isAuthenticated v = true := by
    intro v h1 h2
    simp [isAuthenticated, h1, h2, Val.truthy, JVal.truthy, userRecord, ht]
  exact ⟨hauth _ hu hk, fun requiredRole => hasRole_userRecord _ _ _ _ hu,
    hauth _ (husr.trans hu) (htok.trans hk),
    fun requiredRole => hasRole_userRecord _ _ _ _ (husr.trans hu)⟩

theorem login_success_authenticated_witness :
    isAuthenticated (step stubJSON (Action.login (Val.str "bob") (Val.str "secret")
      (HttpOutcome.resolved
        (JVal.obj [("token", Val.str "t1"), ("username", Val.str "bob"), ("role", Val.str "user")])))
      (mount stubJSON [])) = true ∧
    hasRole (step stubJSON (Action.login (Val.str "bob") (Val.str "secret")
      (HttpOutcome.resolved
        (JVal.obj [("token", Val.str "t1"), ("username", Val.str "bob"), ("role", Val.str "user")])))
      (mount stubJSON [])) (Val.str "user") = true :=
  have h := login_success_authenticated stubJSON (Val.str "bob") (Val.str "secret")
    "t1" "bob" "user" (mount stubJSON []) (by decide) (by decide) (by decide)
  ⟨h.2.2.1, (h.2.2.2 (Val.str "user")).2 rfl⟩

/-- Claim C6: when the store holds a non-empty token `t` under `token` and the serialisation of
`{ username: u, role: r }` under `user` (a non-empty text that `JSON.parse` reads back as that
record), then after mounting the token is `t`, the user is `{ username: u, role: r }`,
`isAuthenticated()` and `hasRole(r)` are true, the `Authorization` header is `Bearer ` followed
by `t`, `loading` is false and no request has been sent. -/
theorem mount_adopts_persisted_session (J : JSONApi) (storage : Storage) (t u r : String)
    (ht : t ≠ "")
    (htoken : storage.getItem "token" = Val.str t)
    (huser : storage.getItem "user" = Val.str (J.stringify (userRecord (Val.str u) (Val.str r))))
    (hne : J.stringify (userRecord (Val.str u) (Val.str r)) ≠ "")
    (hparse : J.parse (J.stringify (userRecord (Val.str u) (Val.str r))) =
      some (userRecord (Val.str u) (Val.str r))) :
    (mount J storage).token = Val.str t ∧
    (mount J storage).user = userRecord (Val.str u) (Val.str r) ∧
    isAuthenticated (mount J storage) = true ∧
    hasRole (mount J storage) (Val.str r) = true ∧
    (mount J storage).authorization = some ("Bearer " ++ t) ∧
    (mount J storage).loading = false ∧
    (mount J storage).requests = [] := by
  have hm : mount J storage =
      { user := userRecord (Val.str u) (Val.str r)
        token := Val.str t
        loading := false
        storage := storage
        authorization := some ("Bearer " ++ t)
        baseURL := some "http://localhost:5095"
        requests := [] } := by
    simp [mount, rerender, initializeAuth, tokenEffect, initialRender, htoken, huser, hparse,
      Val.truthy, Val.toStr, ht, hne]
  rw [hm]
  refine ⟨rfl, rfl, ?_, ?_, rfl, rfl, rfl⟩
  · simp [isAuthenticated, Val.truthy, JVal.truthy, userRecord, ht]
  · exact (hasRole_userRecord _ _ _ _ rfl).2 rfl

theorem mount_adopts_persisted_session_witness :
    isAuthenticated (mount stubJSON
      [("token", "abc"), ("user", "\x7b\"username\":\"bob\",\"role\":\"admin\"\x7d")]) = true ∧
    hasRole (mount stubJSON
      [("token", "abc"), ("user", "\x7b\"username\":\"bob\",\"role\":\"admin\"\x7d")])
      (Val.str "admin") = true ∧
    (mount stubJSON
      [("token", "abc"), ("user", "\x7b\"username\":\"bob\",\"role\":\"admin\"\x7d")]).requests
      = [] :=
  have h := mount_adopts_persisted_session stubJSON
    [("token", "abc"), ("user", "\x7b\"username\":\"bob\",\"role\":\"admin\"\x7d")]
    "abc" "bob" "admin" (by decide) (by decide) (by decide) (by decide) (by decide)
  ⟨h.2.2.1, h.2.2.2.1, h.2.2.2.2.2.2⟩

/-- Claim C7 at its failing input: with no user (an empty store, just mounted),
`hasRole(undefined)` is true, because `user?.role` is `undefined` too. -/
theorem hasRole_undefined_without_user :
    (mount stubJSON []).user = JVal.prim Val.null ∧
    hasRole (mount stubJSON []) Val.undefined = true := by
  decide

/-- Claim C8 at its failing input: mounting on a store whose `user` record is not parseable
leaves the token `abc` in the state while the `Authorization` header is absent. -/
theorem mount_unparseable_user_keeps_token :
    (mount stubJSON [("token", "abc"), ("user", "bob")]).token = Val.str "abc" ∧
    (mount stubJSON [("token", "abc"), ("user", "bob")]).authorization = none := by
  decide

/-- Claim C9 fails for the fallback text: on an error with neither a response nor a message,
`register` answers `Registration failed` where `login` answers `Login failed`. -/
theorem register_fallback_differs_from_login :
    (register stubJSON (Val.str "bob") (Val.str "bob@example.org") (Val.str "secret")
      (HttpOutcome.rejected { response := none, message := Val.undefined })
      (mount stubJSON [])).2 ≠
    (login stubJSON (Val.str "bob") (Val.str "secret")
      (HttpOutcome.rejected { response := none, message := Val.undefined })
      (mount stubJSON [])).2 := by
  decide

/-- Claim C9, amended: for every prior state and every outcome of the request, `register`
leaves the same state as `login`, apart from the request it sent (the endpoint and the `email`
property of the body), and returns the same result, apart from the fallback text of the error,
which is `Registration failed` instead of `Login failed`. -/
theorem register_matches_login (J : JSONApi) (username email password : Val)
    (http : HttpOutcome) (w : World) :
    let l := login J username password http w
    let g := register J username email password http w
    g.1.user = l.1.user ∧ g.1.token = l.1.token ∧ g.1.loading = l.1.loading ∧
    g.1.storage = l.1.storage ∧ g.1.authorization = l.1.authorization ∧
    g.1.baseURL = l.1.baseURL ∧
    l.1.requests = w.requests ++
      [{ url := "/api/auth/login", body := [("username", username), ("password", password)] }] ∧
    g.1.requests = w.requests ++
      [{ url := "/api/auth/register"
         body := [("username", username), ("email", email), ("password", password)] }] ∧
    g.2.success = l.2.success ∧
    (g.2.error = l.2.error ∨
      (l.2.error = some (JVal.prim (Val.str "Login failed")) ∧
        g.2.error = some (JVal.prim (Val.str "Registration failed")))) := by
  intro l g
  have hl : l = login J username password http w := rfl
  have hg : g = register J username email password http w := rfl
  have key : ∀ error : JSError,
      (error.payload.or (JVal.prim error.message)).or (JVal.prim (Val.str "Registration failed")) =
        (error.payload.or (JVal.prim error.message)).or (JVal.prim (Val.str "Login failed")) ∨
      ((error.payload.or (JVal.prim error.message)).or (JVal.prim (Val.str "Login failed")) =
          JVal.prim (Val.str "Login failed") ∧
        (error.payload.or (JVal.prim error.message)).or
          (JVal.prim (Val.str "Registration failed")) =
          JVal.prim (Val.str "Registration failed")) := by
    intro error
    rw [or_or_eq, or_or_eq]
    by_cases h1 : error.payload.truthy = true
    · simp [h1]
    · by_cases h2 : error.message.truthy = true
      · simp [h1, h2]
      · simp [h1, h2]
  have hf := (loginTry_frame J username password http w).1
  unfold login at hl
  unfold register at hg
  rw [registerTry_eq] at hg
  rcases hp : loginTry J username password http w with ⟨w1, c⟩
  rw [hp] at hl hg hf
  cases c with
  | error e =>
    rw [hl, hg]
    refine ⟨rfl, rfl, rfl, rfl, rfl, rfl, hf, rfl, rfl, ?_⟩
    simpa using key e
  | ok result =>
    rw [hl, hg]
    exact ⟨rfl, rfl, rfl, rfl, rfl, rfl, hf, rfl, rfl, Or.inl rfl⟩

theorem Val.not_nullish_of_truthy (v : Val) (h : v.truthy = true) : v.isNullish = false := by
  cases v <;> simp_all [Val.truthy, Val.isNullish]

theorem login_user_token (J : JSONApi) (username password : Val) (http : HttpOutcome)
    (w : World) (hc : http.carriesToken = true)
    (hw : w.user.isNullish = false → w.token.isNullish = false) :
    (login J username password http w).1.user.isNullish = false →
      (login J username password http w).1.token.isNullish = false := by
  rw [login_fst]
  obtain ⟨-, -, -, h | h⟩ := loginTry_frame J username password http w
  · obtain ⟨e, -, hu, ht, -⟩ := h
    rw [hu, ht]
    exact hw
  · obtain ⟨data, rfl, hd, -, -, ht, -⟩ := h
    intro _
    rw [ht]
    simpa [HttpOutcome.carriesToken, hd] using hc

theorem register_user_token (J : JSONApi) (username email password : Val) (http : HttpOutcome)
    (w : World) (hc : http.carriesToken = true)
    (hw : w.user.isNullish = false → w.token.isNullish = false) :
    (register J username email password http w).1.user.isNullish = false →
      (register J username email password http w).1.token.isNullish = false := by
  have h := login_user_token J username password http w hc hw
  rw [login_fst] at h
  rw [register_fst, registerTry_eq]
  exact h

theorem initializeAuth_user_token (J : JSONApi) (w : World)
    (hw : w.user.isNullish = false → w.token.isNullish = false) :
    (initializeAuth J w).user.isNullish = false →
      (initializeAuth J w).token.isNullish = false := by
  unfold initializeAuth
  by_cases hc : ((w.storage.getItem "token").truthy && (w.storage.getItem "user").truthy) = true
  · have ht : (w.storage.getItem "token").isNullish = false :=
      Val.not_nullish_of_truthy _ (by simp only [Bool.and_eq_true] at hc; exact hc.1)
    intro _
    simp only [hc, if_true]
    cases J.parse (w.storage.getItem "user").toStr <;> exact ht
  · simpa [hc] using hw

theorem step_user_token (J : JSONApi) (a : Action) (w : World) (hc : a.carriesToken = true)
    (hw : w.user.isNullish = false → w.token.isNullish = false) :
    (step J a w).user.isNullish = false → (step J a w).token.isNullish = false := by
  obtain ⟨htok, husr, -, -, -⟩ := rerender_fields w.token (perform J a w)
  unfold step
  rw [htok, husr]
  cases a with
  | initializeAuth => exact initializeAuth_user_token J w hw
  | login u p http => exact login_user_token J u p http w hc hw
  | register u e p http => exact register_user_token J u e p http w hc hw
  | logout => intro h; exact absurd h (by simp [perform, logout, JVal.isNullish, Val.isNullish])

theorem mount_user_token (J : JSONApi) (storage : Storage) :
    (mount J storage).user.isNullish = false → (mount J storage).token.isNullish = false := by
  obtain ⟨htok, husr, -, -, -⟩ :=
    rerender_fields (initialRender storage).token
      (initializeAuth J (tokenEffect (initialRender storage)))
  unfold mount
  dsimp only
  rw [htok, husr]
  apply initializeAuth_user_token
  intro h
  have hu : (tokenEffect (initialRender storage)).user = JVal.prim Val.null := by
    unfold tokenEffect; dsimp only; split <;> rfl
  rw [hu] at h
  exact absurd h (by simp [JVal.isNullish, Val.isNullish])

theorem run_user_token (J : JSONApi) (actions : List Action) (w : World)
    (hc : ∀ a ∈ actions, a.carriesToken = true)
    (hw : w.user.isNullish = false → w.token.isNullish = false) :
    (run J actions w).user.isNullish = false → (run J actions w).token.isNullish = false := by
  induction actions generalizing w with
  | nil => exact hw
  | cons a rest ih =>
    exact ih (step J a w) (fun b hb => hc b (List.mem_cons_of_mem a hb))
      (step_user_token J a w (hc a (List.mem_cons_self a rest)) hw)

/-- Claim C10 fails for a reply without a token: after `login` with the reply
`{ token: null, username: "bob", role: "user" }` the user is set and the token is `null`. -/
theorem user_without_token_after_login :
    (run stubJSON
      [Action.login (Val.str "bob") (Val.str "secret")
        (HttpOutcome.resolved (authResponse Val.null (Val.str "bob") (Val.str "user")))]
      (mount stubJSON [])).user = userRecord (Val.str "bob") (Val.str "user") ∧
    (run stubJSON
      [Action.login (Val.str "bob") (Val.str "secret")
        (HttpOutcome.resolved (authResponse Val.null (Val.str "bob") (Val.str "user")))]
      (mount stubJSON [])).token = Val.null := by
  decide

/-- Claim C10, amended: from mounting on any store, after any sequence of `initializeAuth`,
`login`, `register` and `logout` whose replies, where they have a body, carry a token that is
neither `null` nor `undefined`, the user is non-null only if the token is non-null. -/
theorem user_only_with_token (J : JSONApi) (storage : Storage) (actions : List Action)
    (hc : ∀ a ∈ actions, a.carriesToken = true) :
    (run J actions (mount J storage)).user.isNullish = false →
      (run J actions (mount J storage)).token.isNullish = false :=
  run_user_token J actions (mount J storage) hc (mount_user_token J storage)

theorem user_only_with_token_witness :
    (run stubJSON
      [Action.login (Val.str "bob") (Val.str "secret")
          (HttpOutcome.rejected { response := none, message := Val.str "Network Error" }),
        Action.register (Val.str "bob") (Val.str "bob@example.org") (Val.str "secret")
          (HttpOutcome.resolved (authResponse (Val.str "t1") (Val.str "bob") (Val.str "user")))]
      (mount stubJSON [("theme", "dark")])).token.isNullish = false :=
  user_only_with_token stubJSON [("theme", "dark")]
    [Action.login (Val.str "bob") (Val.str "secret")
        (HttpOutcome.rejected { response := none, message := Val.str "Network Error" }),
      Action.register (Val.str "bob") (Val.str "bob@example.org") (Val.str "secret")
        (HttpOutcome.resolved (authResponse (Val.str "t1") (Val.str "bob") (Val.str "user")))]
    (by decide) (by decide)


end Syncro
